import Mathlib

/-!
Verification of the workflow control loop of an industrial diagnostic
multi-agent system (planner / executor / replanner / human review gate /
synthesizer orchestration).

The definitions below are a shallow embedding of the Python sources:
  agents/planner_agent.py, agents/replan_agent.py, agents/executor_agent.py,
  agents/scada_agent.py, agents/manual_agent.py, agents/synthesizer_agent.py,
  agents/orchestrator.py, shared_decision.py.
External collaborators (the Groq LLM oracle calls, the SCADA and manual
tool adapters, the human decision channel, wall-clock timestamps) are
modelled as explicit parameters: each oracle call site receives an
`Except`-style outcome (`.error` models the Python call raising an
exception that the surrounding `except` block catches), and the human
decision channel is a poll-indexed trace of its observable contents.

Python string primitives (`in`, `.lower()`, `.strip()`, `.startswith`,
slicing) operate on sequences of code points, so they are modelled directly
on `String.data`, the code-point list of a Lean string.
-/

/-! ## String helpers (Python `in`, `.lower()`, `.strip()`, `.startswith`, slicing) -/

/-- Python `needle in hay` on lists of characters. -/
def charsInfix (needle : List Char) : List Char → Bool
  | [] => needle.isEmpty
  | c :: rest => needle.isPrefixOf (c :: rest) || charsInfix needle rest

/-- Python substring test `needle in hay`. -/
def strContains (hay needle : String) : Bool :=
  charsInfix needle.data hay.data

/-- Python `s.startswith(pre)`. -/
def pyStartsWith (s pre : String) : Bool :=
  pre.data.isPrefixOf s.data

/-- Python slice `s[:n]`. -/
def pyTake (s : String) (n : Nat) : String :=
  String.mk (s.data.take n)

/-- Python `s.lower()` (the strings involved are ASCII, where
`Char.toLower` agrees with Python's case folding). -/
def pyLower (s : String) : String :=
  String.mk (s.data.map Char.toLower)

/-- The ASCII whitespace characters removed by Python `str.strip()`. -/
def isPySpace (c : Char) : Bool :=
  c == ' ' || c == '\t' || c == '\n' || c == '\r' || c == '\x0b' || c == '\x0c'

/-- Python `s.strip()`. -/
def pyStrip (s : String) : String :=
  String.mk (((s.data.dropWhile isPySpace).reverse.dropWhile isPySpace).reverse)

/-! ## Step Validator — `PlannerAgent._validate_steps` (planner_agent.py 113-154) -/

/-- The `pure_analysis_phrases` list from `PlannerAgent._validate_steps`. -/
def pure_analysis_phrases : List String :=
  ["determine root cause", "make decision", "decide on", "recommend action",
   "conclude that", "synthesize results", "provide recommendation",
   "identify the problem", "diagnose the issue"]

/-- The data-gathering verbs tested by `_validate_steps`
(`"get" in step_lower or "check" in step_lower or ...`). -/
def dataGatherVerbs : List String :=
  ["get", "check", "search", "find", "query", "retrieve"]

/-- One loop body of `_validate_steps`: whether `step` is kept. -/
def stepIsValid (step : String) : Bool :=
  if !(pyStartsWith step "SCADA:" || pyStartsWith step "MANUAL:") then
    false
  else if (pure_analysis_phrases.any (fun p => strContains (pyLower step) p))
      && !(dataGatherVerbs.any (fun v => strContains (pyLower step) v)) then
    false
  else
    true

/-- `PlannerAgent._validate_steps`: filter the raw steps, and substitute the
single default step when nothing survives. -/
def validate_steps (steps : List String) : List String :=
  if (steps.filter stepIsValid).isEmpty then ["SCADA: Get current system readings"]
  else steps.filter stepIsValid

/-- `PlannerAgent.create_plan` (planner_agent.py 20-111): the Groq call is the
external planner oracle; on success its raw steps run through
`_validate_steps`, on an exception the method returns an empty plan. -/
def create_plan (oracle : Except Unit (List String)) : List String :=
  match oracle with
  | .ok steps => validate_steps steps
  | .error _ => []

/-- `PlannerAgent.create_plan_from_feedback` (planner_agent.py 156-242):
on oracle success the raw steps are validated; on an exception the fallback
is one step embedding a 50-character feedback excerpt. -/
def create_plan_from_feedback (oracle : Except Unit (List String))
    (feedback : String) : List String :=
  match oracle with
  | .ok steps => validate_steps steps
  | .error _ => ["SCADA: Address feedback - " ++ pyTake feedback 50 ++ "..."]

/-- `PlannerAgent.modify_plan_with_feedback` (planner_agent.py 244-340):
empty remaining plan delegates to `create_plan_from_feedback`; otherwise the
oracle rewrite is validated and trimmed to 3 steps, and on an exception the
first remaining step is annotated with a feedback excerpt, the rest kept,
and the whole list truncated to 3 (`fallback_plan[:3]`). -/
def modify_plan_with_feedback (oracle cpffOracle : Except Unit (List String))
    (current_plan : List String) (feedback : String) : List String :=
  match current_plan with
  | [] => create_plan_from_feedback cpffOracle feedback
  | first :: rest =>
    match oracle with
    | .ok steps =>
      if 3 < (validate_steps steps).length then (validate_steps steps).take 3
      else validate_steps steps
    | .error _ =>
      ((first ++ " (incorporating: " ++ pyTake feedback 50 ++ "...)") :: rest).take 3

/-! ## Replan agent — `ReplanAgent.decide_next_action` (replan_agent.py 238-375) -/

/-- A structured replanner oracle outcome: `call_groq_structured(prompt, Act)`
returns either a `Response` (a direct response string) or a `Plan`
(a list of steps). -/
inductive ActOut where
  | response (r : String)
  | plan (steps : List String)
deriving DecidableEq

/-- The dict returned by `ReplanAgent.decide_next_action`; absent Python keys
are `none` / `false` defaults. -/
structure ReplanOutput where
  ready_for_synthesis : Option Bool := none
  response : Option String := none
  plan : Option (List String) := none
  duplicate_warning : Bool := false
  too_many_steps_warning : Bool := false
  replan_failed_warning : Bool := false
  synthesis_recommended : Bool := false
deriving DecidableEq

/-- Duplicate detection from `decide_next_action` (replan_agent.py 250-265):
with at least two past steps, compare
`past_steps[-1][1][:200].lower().strip()` with
`past_steps[-2][1][:200].lower().strip()`. -/
def duplicateFlag (past_steps : List (String × String)) : Bool :=
  match past_steps.reverse with
  | (_, last_result) :: (_, previous_result) :: _ =>
    pyStrip (pyLower (pyTake last_result 200)) ==
      pyStrip (pyLower (pyTake previous_result 200))
  | _ => false

/-- The step-budget decision inside the `Plan` branch of `decide_next_action`
(replan_agent.py 346-363): hard reject over 5 total steps, always accept up
to 3, and between 4 and 5 accept only consolidated-looking proposals
(a step longer than 80 characters, or "correlations"/"and" in the joined
lowercased text). -/
def budgetAccepts (pastCount : Nat) (remaining_steps : List String) : Bool :=
  if 5 < pastCount + remaining_steps.length then false
  else if 3 < pastCount + remaining_steps.length then
    remaining_steps.any (fun step => 80 < step.length)
      || strContains (pyLower (String.intercalate " " remaining_steps)) "correlations"
      || strContains (pyLower (String.intercalate " " remaining_steps)) "and"
  else true

/-- `ReplanAgent.decide_next_action`: duplicate check first (early return of
only a duplicate warning), then the Groq oracle (`.error` is the `except`
branch), then the `Response`/`Plan` handling with the step budget. The
function is total: rejection is a returned warning dict, never an
exception. -/
def decide_next_action (past_steps : List (String × String))
    (oracle : Except Unit ActOut) : ReplanOutput :=
  if duplicateFlag past_steps then { duplicate_warning := true }
  else
    match oracle with
    | .error _ => { replan_failed_warning := true }
    | .ok (.response r) =>
      if r == "SYNTHESIZE" then { synthesis_recommended := true }
      else { response := some r }
    | .ok (.plan remaining_steps) =>
      if remaining_steps.isEmpty then { ready_for_synthesis := some true }
      else if budgetAccepts past_steps.length remaining_steps then
        { plan := some remaining_steps }
      else { too_many_steps_warning := true }

/-! ## Human decision channel and review gate
(`shared_decision.py`, `Orchestrator._human_in_the_loop_review`,
orchestrator.py 62-185) -/

/-- The decision written by `shared_decision.set_decision(choice, feedback)`:
a choice string and an optional natural-language feedback. -/
structure Decision where
  choice : String
  feedback : Option String
deriving DecidableEq

/-- The dict returned by `_human_in_the_loop_review`: an action string plus a
feedback entry that is present only when real feedback accompanied the
decision. -/
structure HumanAct where
  action : String
  feedback : Option String
deriving DecidableEq

/-- Python truthiness test `feedback and feedback.strip()` on the optional
feedback field. -/
def hasRealFeedback (fb : Option String) : Bool :=
  match fb with
  | some f => !(f == "") && !(pyStrip f == "")
  | none => false

/-- Decision handling of `_human_in_the_loop_review` (orchestrator.py
124-173): map a consumed decision to the returned action dict. -/
def decodeDecision (d : Decision) : HumanAct :=
  let fb := if hasRealFeedback d.feedback then d.feedback else none
  if d.choice == "c" || d.choice == "continue" then
    { action := "continue", feedback := fb }
  else if d.choice == "e" || d.choice == "edit" then
    if hasRealFeedback d.feedback then { action := "edit", feedback := d.feedback }
    else { action := "continue", feedback := none }
  else if d.choice == "s" || d.choice == "synthesize" then
    { action := "synthesize", feedback := fb }
  else if d.choice == "q" || d.choice == "quit" then
    { action := "quit", feedback := fb }
  else
    { action := "continue", feedback := fb }

/-- Number of polls in one review cycle: `max_wait_time = 300` seconds at
`wait_interval = 0.5` seconds (orchestrator.py 115-117). The loop `while
elapsed_time < max_wait_time` with `elapsed_time += 0.5` after each sleep
performs exactly 600 polls (0.5 is exactly representable in binary floating
point, so the Python float accumulation is exact). -/
def gatePollCount : Nat := 600

/-- The polling loop of `_human_in_the_loop_review` (orchestrator.py
119-185). `env i` is the channel content `shared_decision.get_decision()`
observed at poll `i`. On the first poll that sees a decision, the gate
decodes it and clears the channel (`shared_decision.clear_decision()`)
before returning; the second component is the channel content when the gate
returns (`none` = cleared; on timeout the channel is whatever the
environment left at the end of the window, which the gate never touched). -/
def reviewGatePoll (env : Nat → Option Decision) : Nat → Nat → HumanAct × Option Decision
  | 0, i => ({ action := "continue", feedback := none }, env i)
  | fuel + 1, i =>
    match env i with
    | some d => (decodeDecision d, none)
    | none => reviewGatePoll env fuel (i + 1)

/-- One full review cycle: 600 polls starting at poll 0; timeout resolves to
`continue` with no feedback (orchestrator.py 183-185). -/
def reviewGate (env : Nat → Option Decision) : HumanAct × Option Decision :=
  reviewGatePoll env gatePollCount 0

/-! ## Tool agents and executor
(`scada_agent.py`, `manual_agent.py`, `executor_agent.py`) -/

/-- One result entry of `ManualSearchTool.search`: the fields the agent
reads, `res['content']` and `res['metadata'].get('source', 'Unknown')`
(the `.get` default is already applied). -/
structure SearchRes where
  content : String
  source : String
deriving DecidableEq

/-- The two return formats of `ManualSearchTool.search` that
`ManualAgent.search` distinguishes (manual_agent.py 23-30): the new dict
format with a `results` list and an `ai_explanation`, or the old plain
list format. -/
inductive ManualToolOut where
  | newFmt (results : List SearchRes) (ai_explanation : String)
  | oldFmt (results : List SearchRes)
deriving DecidableEq

/-- The behaviors of the two underlying tool adapters, as functions of the
query they are invoked with; `.error e` models the call raising an
exception with text `e`. -/
structure ToolFns where
  query_scada : String → Except String String
  manual_search : String → Except String ManualToolOut

/-- `ScadaAgent.query` (scada_agent.py 12-26): return the adapter result, or
convert an exception into `"SCADA error: ..."`. -/
def ScadaAgent.query (tools : ToolFns) (user_query : String) : String :=
  match tools.query_scada user_query with
  | .ok result => result
  | .error e => "SCADA error: " ++ e

/-- The `enumerate(results_list, 1)` formatting loop of `ManualAgent.search`
(manual_agent.py 32-36). -/
def formatManualResults (i : Nat) : List SearchRes → List String
  | [] => []
  | res :: rest =>
    let content_preview :=
      if 200 < res.content.length then pyTake res.content 200 ++ "..." else res.content
    (toString i ++ ". " ++ content_preview ++ " (Source: " ++ res.source ++ ")")
      :: formatManualResults (i + 1) rest

/-- `ManualAgent.search` (manual_agent.py 13-48): format the tool results
(with the AI-analysis suffix when present), or convert an exception into
`"Manual search error: ..."`. -/
def ManualAgent.search (tools : ToolFns) (user_query : String) : String :=
  match tools.manual_search user_query with
  | .error e => "Manual search error: " ++ e
  | .ok out =>
    let results_list := match out with
      | .newFmt rs _ => rs
      | .oldFmt rs => rs
    let ai_explanation := match out with
      | .newFmt _ a => a
      | .oldFmt _ => ""
    let formatted_results := formatManualResults 1 results_list
    let result :=
      if formatted_results.isEmpty then "No relevant information found."
      else String.intercalate "\n" formatted_results
    if !(ai_explanation == "") then result ++ "\n\n🤖 AI Analysis:\n" ++ ai_explanation
    else result

/-- The sensor-vocabulary keywords of the executor auto-detect fallback
(executor_agent.py 49). -/
def scadaKeywords : List String :=
  ["sensor", "pressure", "temperature", "data", "reading", "current", "error code"]

/-- `any(word in current_step_task.lower() for word in [...])`. -/
def autoDetectScada (step : String) : Bool :=
  scadaKeywords.any (fun word => strContains (pyLower step) word)

/-- `ExecutorAgent.execute_step` (executor_agent.py 16-59): dispatch the head
of the plan by its tool prefix (or auto-detect), always invoking the tool
with the state's original `input` query; returns the `past_steps` value of
the returned dict. The function is total: adapter failures are absorbed by
the tool agents, so no exception reaches the caller. -/
def ExecutorAgent.execute_step (tools : ToolFns) (plan : List String)
    (input : String) : List (String × String) :=
  match plan with
  | [] => [("No steps in plan", "Execution completed or plan is empty")]
  | current_step_task :: _ =>
    let result :=
      if pyStartsWith current_step_task "SCADA:" then ScadaAgent.query tools input
      else if pyStartsWith current_step_task "MANUAL:" then ManualAgent.search tools input
      else if autoDetectScada current_step_task then ScadaAgent.query tools input
      else ManualAgent.search tools input
    [(current_step_task, result)]

/-! ## Synthesizer and context summary
(`synthesizer_agent.py`, `Orchestrator._generate_context_summary`) -/

/-- Outcome of the synthesizer's Groq HTTP call: a 200 response with some
content, a non-200 status, or a raised exception. -/
inductive SynthOutcome where
  | ok (content : String)
  | httpErr
  | exc
deriving DecidableEq

/-- `SynthesizerAgent.synthesize_response` (synthesizer_agent.py 27-99):
the LLM content on success, and the two deterministic fallback texts on
HTTP error or exception. -/
def synthesize_response (input : String) (pastCount : Nat)
    (o : SynthOutcome) : String :=
  match o with
  | .ok content => content
  | .httpErr =>
    "🔧 DIAGNOSTIC SUMMARY\nQuestion: " ++ input ++ "\n\nBased on " ++
      toString pastCount ++
      " completed diagnostic steps, the system has gathered relevant information. Please review the detailed results above for specific findings and recommendations. An error occurred during final synthesis."
  | .exc =>
    "🔧 DIAGNOSTIC SUMMARY\nQuestion: " ++ input ++ "\n\nCompleted " ++
      toString pastCount ++
      " diagnostic steps successfully. An unexpected error prevented full synthesis."

/-- Outcome of `Orchestrator._generate_context_summary` (orchestrator.py
437-481): the LLM summary on success, or the fixed fallback text on a
missing key, non-200 status, or exception. -/
inductive SummaryOutcome where
  | ok (text : String)
  | fallback
deriving DecidableEq

/-- `_generate_context_summary` collapsed over its three fallback branches. -/
def generate_context_summary (o : SummaryOutcome) : String :=
  match o with
  | .ok text => text
  | .fallback => "Key findings from diagnostic analysis"

/-! ## Orchestrator — `Orchestrator.run_diagnostic_workflow`
(orchestrator.py 187-435) -/

/-- The mutable workflow fields of `DiagnosticState` that the loop touches
(diagnostic_state.py): `plan`, `past_steps`, `response`,
`ready_for_synthesis`. The conversation-context fields (`input`,
`conversation_history`, `current_turn_context`, `turn_number`) only feed
oracle prompt text and are carried separately. -/
structure LoopState where
  plan : List String
  past_steps : List (String × String)
  response : String
  ready_for_synthesis : Bool
deriving DecidableEq

/-- A `ConversationTurn` (diagnostic_state.py 7-13). -/
structure ConvTurn where
  timestamp : String
  user_query : String
  diagnostic_steps : List (String × String)
  final_response : String
  context_summary : String
deriving DecidableEq

/-- External outcomes consumed by one iteration of the main loop: the tool
adapters, the replanner oracle, the in-loop review gate's channel trace,
and the plan-editor oracles used on human `edit` / `continue+feedback`. -/
structure IterEnv where
  tools : ToolFns
  replan : Except Unit ActOut
  gate : Nat → Option Decision
  editOracle : Except Unit (List String)
  modifyOracle : Except Unit (List String)
  modifyCpff : Except Unit (List String)

/-- All external outcomes consumed by one `run_diagnostic_workflow` call:
the planner oracle, per-iteration environments, the post-loop review and
its plan-editor oracles, the synthesizer outcome, the context-summary
outcome and the turn timestamp. -/
structure TurnEnv where
  planner : Except Unit (List String)
  iters : Nat → IterEnv
  postGate : Nat → Option Decision
  postEdit : Except Unit (List String)
  postModifyOracle : Except Unit (List String)
  postModifyCpff : Except Unit (List String)
  synth : SynthOutcome
  summary : SummaryOutcome
  timestamp : String

/-- Sequential application of the replan agent's output to the state
(orchestrator.py 257-278): adopt `ready_for_synthesis` and `response` when
present, then append the proposed steps that are not already in the
remaining plan (string equality); a present-but-empty proposed plan with no
synthesis signal and no response forces synthesis. -/
def applyReplanOutput (rp : ReplanOutput) (st : LoopState) : LoopState :=
  let st :=
    match rp.ready_for_synthesis with
    | some b => { st with ready_for_synthesis := b }
    | none => st
  let st :=
    match rp.response with
    | some r => { st with response := r }
    | none => st
  match rp.plan with
  | some new_steps =>
    if !new_steps.isEmpty then
      let unique_new_steps := new_steps.filter (fun step => !(st.plan.contains step))
      if !unique_new_steps.isEmpty then { st with plan := st.plan ++ unique_new_steps }
      else st
    else if st.ready_for_synthesis = false ∧ st.response = "" then
      { st with ready_for_synthesis := true }
    else st
  | none => st

/-- Application of a human review decision (orchestrator.py 316-358 inside
the loop; 369-410 after the loop — the two blocks are the same
quit/synthesize/edit/continue handling). `quit` sets the abort response
(the in-loop `break` is equivalent to the loop condition failing on the
now non-empty response); `edit` and `continue` with real feedback invoke
the plan editor and adopt its result when non-empty. -/
def applyHumanDecision (hd : HumanAct)
    (editOracle modifyOracle modifyCpff : Except Unit (List String))
    (st : LoopState) : LoopState :=
  if hd.action == "quit" then { st with response := "Workflow aborted by human." }
  else if hd.action == "synthesize" then { st with ready_for_synthesis := true }
  else if hd.action == "edit" then
    if !(pyStrip (hd.feedback.getD "") == "") then
      let new_plan := create_plan_from_feedback editOracle (pyStrip (hd.feedback.getD ""))
      if !new_plan.isEmpty then { st with plan := new_plan } else st
    else st
  else if hd.action == "continue" then
    if !(pyStrip (hd.feedback.getD "") == "") then
      let modified_plan := modify_plan_with_feedback modifyOracle modifyCpff st.plan
        (pyStrip (hd.feedback.getD ""))
      if !modified_plan.isEmpty then { st with plan := modified_plan } else st
    else st
  else st

/-- One iteration of the main execution loop (orchestrator.py 228-358),
entered with the loop condition already checked: force synthesis on an
empty plan, execute the head step and pop it, run the replan agent and
apply its output, then (unless ready or responded) run the human review
gate — `should_review` is always true inside the loop because
`current_iteration >= 1`, and `_human_in_the_loop_review` is total, so the
`human_decision is None` re-poll branch is dead. -/
def runIter (e : IterEnv) (input : String) (st : LoopState) : LoopState :=
  let st := if st.plan.isEmpty then { st with ready_for_synthesis := true } else st
  let st :=
    if !st.plan.isEmpty then
      { st with
        past_steps := st.past_steps ++ ExecutorAgent.execute_step e.tools st.plan input,
        plan := st.plan.tail }
    else st
  let st := applyReplanOutput (decide_next_action st.past_steps e.replan) st
  if st.ready_for_synthesis = false ∧ st.response = "" then
    applyHumanDecision (reviewGate e.gate).1 e.editOracle e.modifyOracle e.modifyCpff st
  else st

/-- The bounded main loop (orchestrator.py 225-358): `while not
ready_for_synthesis and not response and current_iteration <
max_iterations` with `max_iterations = 5`. `iter` is Python's
`current_iteration`; the structural `fuel` argument (started at 5) never
cuts the loop short because `iter + fuel = 5` throughout, so the guard
`iter < 5` always fails first. Returns the final state and the final
`current_iteration`. -/
def loopGo (env : TurnEnv) (input : String) :
    Nat → Nat → LoopState → LoopState × Nat
  | fuel, iter, st =>
    if st.ready_for_synthesis = false ∧ st.response = "" ∧ iter < 5 then
      match fuel with
      | 0 => (st, iter)
      | fuel + 1 => loopGo env input fuel (iter + 1) (runIter (env.iters (iter + 1)) input st)
    else (st, iter)

/-- The additional human review after the loop (orchestrator.py 360-410),
entered when the loop exhausted without synthesis or response. -/
def postReview (env : TurnEnv) (stIter : LoopState × Nat) : LoopState :=
  if stIter.1.ready_for_synthesis = false ∧ stIter.1.response = "" ∧ 0 < stIter.2 then
    applyHumanDecision (reviewGate env.postGate).1
      env.postEdit env.postModifyOracle env.postModifyCpff stIter.1
  else stIter.1

/-- The synthesizer step and the completed-without-synthesis default
(orchestrator.py 412-420). -/
def finalizeResponse (env : TurnEnv) (input : String) (st : LoopState) : LoopState :=
  if st.ready_for_synthesis = true ∧ st.response = "" then
    { st with response := synthesize_response input st.past_steps.length env.synth }
  else if st.response = "" then
    { st with response := "The diagnostic process completed without a final synthesized response." }
  else st

/-- The workflow state at the end of one `run_diagnostic_workflow` call that
did enter the loop: planner output, bounded loop, post-loop review,
synthesis or default response. -/
def turnFinalState (env : TurnEnv) (initial_query : String) : LoopState :=
  finalizeResponse env initial_query (postReview env (loopGo env initial_query 5 0
    { plan := create_plan env.planner, past_steps := [], response := "",
      ready_for_synthesis := false }))

/-- `Orchestrator.run_diagnostic_workflow` (orchestrator.py 187-435) as a
function of the orchestrator's `conversation_history` field: returns the
response and the new history. The planner-failure branch (lines 219-222)
returns early, before the conversation turn is recorded (lines 422-431). -/
def run_diagnostic_workflow (env : TurnEnv) (history : List ConvTurn)
    (initial_query : String) : String × List ConvTurn :=
  if (create_plan env.planner).isEmpty then
    ("The planner could not create a valid plan. Please try a different query.", history)
  else
    ((turnFinalState env initial_query).response, history ++
      [{ timestamp := env.timestamp
         user_query := initial_query
         diagnostic_steps := (turnFinalState env initial_query).past_steps
         final_response := (turnFinalState env initial_query).response
         context_summary := generate_context_summary env.summary }])

/-! ## Helper lemmas -/

/-- A string with a non-empty left part is non-empty. -/
theorem append_ne_empty_left (s t : String) (h : s ≠ "") : s ++ t ≠ "" := by
  intro he
  apply h
  have hd := congrArg String.data he
  rw [String.data_append] at hd
  exact String.ext (List.append_eq_nil.mp hd).1

/-- The Step Validator never returns an empty list. -/
theorem validate_steps_ne_nil (steps : List String) : validate_steps steps ≠ [] := by
  unfold validate_steps
  split
  · simp
  · next h => simpa using h

/-- Every element of the Step Validator output satisfies `stepIsValid`. -/
theorem mem_validate_steps_isValid {steps : List String} {s : String}
    (h : s ∈ validate_steps steps) : stepIsValid s = true := by
  unfold validate_steps at h
  split at h
  · simp at h
    subst h
    decide
  · exact (List.mem_filter.mp h).2

/-- A kept step has one of the two recognized tool prefixes. -/
theorem stepIsValid_tag {s : String} (h : stepIsValid s = true) :
    pyStartsWith s "SCADA:" = true ∨ pyStartsWith s "MANUAL:" = true := by
  cases hS : pyStartsWith s "SCADA:" with
  | true => exact Or.inl rfl
  | false =>
    cases hM : pyStartsWith s "MANUAL:" with
    | true => exact Or.inr rfl
    | false =>
      exfalso
      rw [stepIsValid] at h
      simp [hS, hM] at h

/-- A pure-analysis step without a data-gathering verb is not kept. -/
theorem stepIsValid_pure_analysis {s : String}
    (hp : pure_analysis_phrases.any (fun p => strContains (pyLower s) p) = true)
    (hv : dataGatherVerbs.any (fun v => strContains (pyLower s) v) = false) :
    stepIsValid s = false := by
  rw [stepIsValid]
  simp only [hp, hv]
  split <;> simp

/-! ## Claim C5 — Step Validator guarantees -/

/-- Claim C5: for every input list of raw step strings, the Step Validator
output is non-empty, every kept element starts with a recognized tool tag
(`SCADA:` or `MANUAL:`), strings without a recognized tag are discarded,
strings containing a pure-analysis phrase without a data-gathering verb are
discarded, and when the filter keeps nothing the single default step
`SCADA: Get current system readings` is substituted. -/
theorem C5_step_validator (steps : List String) :
    validate_steps steps ≠ []
    ∧ (∀ s ∈ validate_steps steps,
        pyStartsWith s "SCADA:" = true ∨ pyStartsWith s "MANUAL:" = true)
    ∧ (∀ s, pyStartsWith s "SCADA:" = false → pyStartsWith s "MANUAL:" = false →
        s ∉ validate_steps steps)
    ∧ (∀ s, pure_analysis_phrases.any (fun p => strContains (pyLower s) p) = true →
        dataGatherVerbs.any (fun v => strContains (pyLower s) v) = false →
        s ∉ validate_steps steps)
    ∧ (steps.filter stepIsValid = [] →
        validate_steps steps = ["SCADA: Get current system readings"]) := by
  refine ⟨validate_steps_ne_nil steps, ?_, ?_, ?_, ?_⟩
  · intro s hs
    exact stepIsValid_tag (mem_validate_steps_isValid hs)
  · intro s h1 h2 hmem
    rcases stepIsValid_tag (mem_validate_steps_isValid hmem) with h | h
    · rw [h1] at h; exact Bool.false_ne_true h
    · rw [h2] at h; exact Bool.false_ne_true h
  · intro s hp hv hmem
    have hval := mem_validate_steps_isValid hmem
    rw [stepIsValid_pure_analysis hp hv] at hval
    exact Bool.false_ne_true hval
  · intro hf
    unfold validate_steps
    rw [hf]
    simp

/-- Witness for C5 at a concrete input: a tagless raw step is discarded and
the output is still non-empty. -/
theorem C5_step_validator_witness :
    validate_steps ["Analyze the results"] ≠ []
    ∧ "Analyze the results" ∉ validate_steps ["Analyze the results"] :=
  ⟨(C5_step_validator ["Analyze the results"]).1,
   (C5_step_validator ["Analyze the results"]).2.2.1 "Analyze the results"
     (by decide) (by decide)⟩

/-! ## Claim C3 — Step Budget Enforcer -/

/-- Claim C3: the Step Budget Enforcer rejects every proposal whose total
(completed plus proposed steps) exceeds 5, always accepts totals up to 3,
and for totals of 4 or 5 accepts exactly when some proposed step is longer
than 80 characters or the joined lowercased proposal text contains
"correlations" or "and"; inside `decide_next_action` a rejection only
returns the too-many-steps warning dict — it never extends the plan and,
the function being total, never raises. -/
theorem C3_step_budget (pastN : Nat) (steps : List String) :
    (5 < pastN + steps.length → budgetAccepts pastN steps = false)
    ∧ (pastN + steps.length ≤ 3 → budgetAccepts pastN steps = true)
    ∧ (3 < pastN + steps.length → pastN + steps.length ≤ 5 →
        (budgetAccepts pastN steps = true ↔
          (∃ s ∈ steps, 80 < s.length)
          ∨ strContains (pyLower (String.intercalate " " steps)) "correlations" = true
          ∨ strContains (pyLower (String.intercalate " " steps)) "and" = true))
    ∧ (∀ past_steps : List (String × String), duplicateFlag past_steps = false →
        past_steps.length = pastN → steps ≠ [] →
        (budgetAccepts pastN steps = false →
          decide_next_action past_steps (.ok (.plan steps)) =
            { too_many_steps_warning := true })
        ∧ (budgetAccepts pastN steps = true →
          decide_next_action past_steps (.ok (.plan steps)) =
            { plan := some steps })) := by
  refine ⟨?_, ?_, ?_, ?_⟩
  · intro h
    unfold budgetAccepts
    rw [if_pos h]
  · intro h
    unfold budgetAccepts
    have h5 : ¬ 5 < pastN + steps.length := by omega
    have h3 : ¬ 3 < pastN + steps.length := by omega
    rw [if_neg h5, if_neg h3]
  · intro h3 h5
    unfold budgetAccepts
    have h5n : ¬ 5 < pastN + steps.length := by omega
    rw [if_neg h5n, if_pos h3]
    constructor
    · intro h
      rcases (Bool.or_eq_true _ _).mp h with h | h
      · rcases (Bool.or_eq_true _ _).mp h with h | h
        · left
          simpa using h
        · right; left; exact h
      · right; right; exact h
    · intro h
      rcases h with h | h | h
      · have hx : steps.any (fun step => 80 < step.length) = true := by
          simpa using h
        rw [hx]
        rfl
      · rw [h]
        simp
      · rw [h]
        simp
  · intro past_steps hdup hlen hne
    have hie : steps.isEmpty = false := by simpa using hne
    constructor
    · intro hrej
      simp [decide_next_action, hdup, hie, hlen, hrej]
    · intro hacc
      simp [decide_next_action, hdup, hie, hlen, hacc]

/-- Witness for C3 at concrete inputs: a total of 7 is rejected, a total of
2 is accepted, and a rejection surfaces as the warning dict only. -/
theorem C3_step_budget_witness :
    budgetAccepts 6 ["SCADA: a"] = false
    ∧ budgetAccepts 1 ["SCADA: a"] = true
    ∧ decide_next_action [("s", "r1"), ("t", "r2"), ("u", "r3"), ("v", "r4"),
        ("w", "r5"), ("x", "r6")] (.ok (.plan ["SCADA: a"])) =
        { too_many_steps_warning := true } := by
  refine ⟨(C3_step_budget 6 ["SCADA: a"]).1 (by decide),
    (C3_step_budget 1 ["SCADA: a"]).2.1 (by decide), ?_⟩
  exact ((C3_step_budget 6 ["SCADA: a"]).2.2.2
    [("s", "r1"), ("t", "r2"), ("u", "r3"), ("v", "r4"), ("w", "r5"), ("x", "r6")]
    (by decide) (by decide) (by decide)).1 ((C3_step_budget 6 ["SCADA: a"]).1 (by decide))

/-! ## Claim C8 — Duplicate Detector -/

/-- Claim C8: the Duplicate Detector is a no-op below 2 past steps, fires
exactly when the first 200 characters of the two most recent results agree
after lowercasing and stripping, and when it fires `decide_next_action`
returns only the advisory duplicate-warning dict (no synthesis flag, no
response, no plan change). -/
theorem C8_duplicate_detector (past_steps : List (String × String)) :
    (past_steps.length < 2 → duplicateFlag past_steps = false)
    ∧ (∀ rest s2 r2 s1 r1, past_steps = rest ++ [(s2, r2), (s1, r1)] →
        (duplicateFlag past_steps = true ↔
          pyStrip (pyLower (pyTake r1 200)) = pyStrip (pyLower (pyTake r2 200))))
    ∧ (∀ oracle, duplicateFlag past_steps = true →
        decide_next_action past_steps oracle = { duplicate_warning := true }) := by
  refine ⟨?_, ?_, ?_⟩
  · intro h
    match past_steps, h with
    | [], _ => rfl
    | [(s, r)], _ => rfl
  · intro rest s2 r2 s1 r1 hEq
    subst hEq
    unfold duplicateFlag
    rw [List.reverse_append]
    simp [beq_iff_eq]
  · intro oracle h
    unfold decide_next_action
    rw [h]
    rfl

/-- Witness for C8 at a concrete input: two results equal on their stripped,
lowercased 200-character heads fire the flag and yield only the warning. -/
theorem C8_duplicate_detector_witness :
    decide_next_action [("SCADA: a", "42 PSI "), ("SCADA: b", "42 psi")]
      (.ok (.plan ["SCADA: c"])) = { duplicate_warning := true } :=
  (C8_duplicate_detector [("SCADA: a", "42 PSI "), ("SCADA: b", "42 psi")]).2.2
    (.ok (.plan ["SCADA: c"])) (by decide)

/-! ## Claim C2 — replan dedup-to-empty handling -/

/-- A replan output proposing exactly the step already in the remaining
plan, with no synthesis signal and no direct response. -/
def c2_rp : ReplanOutput := { plan := some ["SCADA: Get current system readings"] }

/-- A loop state whose remaining plan already contains the proposed step. -/
def c2_st : LoopState :=
  { plan := ["SCADA: Get current system readings"], past_steps := [],
    response := "", ready_for_synthesis := false }

/-- Counterexample to C2: the Replanner proposes a non-empty step list, the
uniqueness filter against the remaining plan leaves nothing, no synthesis
signal and no response are present — yet the orchestrator leaves
`ready_for_synthesis` false (the state is entirely unchanged), contrary to
the claim that it is set to true in that iteration. -/
theorem C2_counterexample :
    c2_rp.plan = some ["SCADA: Get current system readings"]
    ∧ ["SCADA: Get current system readings"].filter
        (fun step => !(c2_st.plan.contains step)) = []
    ∧ c2_rp.ready_for_synthesis = none ∧ c2_rp.response = none
    ∧ (applyReplanOutput c2_rp c2_st).ready_for_synthesis = false
    ∧ applyReplanOutput c2_rp c2_st = c2_st := by
  refine ⟨rfl, by decide, rfl, rfl, by decide, by decide⟩

/-- Amended C2: when the Replanner proposes a non-empty list and the
uniqueness filter leaves nothing, the orchestrator leaves the state
unchanged (it does not set `ready_for_synthesis`); the forced
`ready_for_synthesis := true` happens only when the replan output carries a
plan key holding an empty list while the state has no synthesis flag and no
response. -/
theorem C2_amended (rp : ReplanOutput) (st : LoopState) :
    (∀ l, rp.ready_for_synthesis = none → rp.response = none → rp.plan = some l →
      l ≠ [] → l.filter (fun step => !(st.plan.contains step)) = [] →
      applyReplanOutput rp st = st)
    ∧ (rp.ready_for_synthesis = none → rp.response = none → rp.plan = some [] →
      st.ready_for_synthesis = false → st.response = "" →
      (applyReplanOutput rp st).ready_for_synthesis = true) := by
  constructor
  · intro l h1 h2 h3 h4 h5
    have hl : l.isEmpty = false := by simpa using h4
    simp only [applyReplanOutput, h1, h2, h3, hl, h5]
    simp
  · intro h1 h2 h3 h4 h5
    simp [applyReplanOutput, h1, h2, h3, h4, h5]

/-- Witness for the amended C2 at the concrete duplicate-proposal input. -/
theorem C2_amended_witness : applyReplanOutput c2_rp c2_st = c2_st :=
  (C2_amended c2_rp c2_st).1 ["SCADA: Get current system readings"]
    rfl rfl rfl (by decide) (by decide)

/-! ## Claim C9 — Plan Editor Modify operation -/

/-- A four-step remaining plan for the C9 counterexample. -/
def c9_plan : List String := ["SCADA: A", "SCADA: B", "SCADA: C", "SCADA: D"]

/-- Counterexample to C9: with a 4-step remaining plan and a failing rewrite
oracle, the fallback truncates to 3 steps (`fallback_plan[:3]`), dropping
the fourth remaining step — so not every other step of the remaining plan
is preserved, and the annotation is appended to the first step rather than
prefixed. -/
theorem C9_counterexample :
    modify_plan_with_feedback (.error ()) (.error ()) c9_plan "fb" =
      ["SCADA: A (incorporating: fb...)", "SCADA: B", "SCADA: C"]
    ∧ "SCADA: D" ∈ c9_plan.tail
    ∧ "SCADA: D" ∉ modify_plan_with_feedback (.error ()) (.error ()) c9_plan "fb" := by
  refine ⟨by decide, by decide, by decide⟩

/-- Amended C9: for a non-empty remaining plan the Modify result always has
at most 3 steps, and on oracle failure it is the first remaining step with
the 50-character feedback annotation appended, followed by the other
remaining steps, the whole list truncated to 3 entries (steps beyond the
third are dropped). (With an empty remaining plan, Modify instead delegates
to the feedback planner, whose successful result is not capped at 3.) -/
theorem C9_amended (oracle cpffOracle : Except Unit (List String))
    (first : String) (rest : List String) (feedback : String) :
    (modify_plan_with_feedback oracle cpffOracle (first :: rest) feedback).length ≤ 3
    ∧ (oracle = .error () →
        modify_plan_with_feedback oracle cpffOracle (first :: rest) feedback =
          ((first ++ " (incorporating: " ++ pyTake feedback 50 ++ "...)") :: rest).take 3) := by
  constructor
  · cases oracle with
    | ok steps =>
      by_cases h : 3 < (validate_steps steps).length
      · simp only [modify_plan_with_feedback, if_pos h]
        simp [List.length_take]
      · simp only [modify_plan_with_feedback, if_neg h]
        omega
    | error e =>
      simp [modify_plan_with_feedback, List.length_take]
  · intro h
    subst h
    rfl

/-- Witness for the amended C9 at the concrete four-step plan. -/
theorem C9_amended_witness :
    (modify_plan_with_feedback (.error ()) (.error ()) c9_plan "fb").length ≤ 3
    ∧ modify_plan_with_feedback (.error ()) (.error ()) c9_plan "fb" =
        (("SCADA: A" ++ " (incorporating: " ++ pyTake "fb" 50 ++ "...)") ::
          ["SCADA: B", "SCADA: C", "SCADA: D"]).take 3 :=
  ⟨(C9_amended (.error ()) (.error ()) "SCADA: A" ["SCADA: B", "SCADA: C", "SCADA: D"] "fb").1,
   (C9_amended (.error ()) (.error ()) "SCADA: A" ["SCADA: B", "SCADA: C", "SCADA: D"] "fb").2 rfl⟩

/-! ## Claim C7 — Tool Dispatcher absorbs adapter failures -/

/-- Claim C7: for every plan head and workflow input, the executor returns
exactly one `(step, result)` pair (the model is a total function — no
exception propagates); when the dispatched adapter raises, the result is
the error-describing string with the tool-distinct prefix
(`SCADA error: ...` / `Manual search error: ...`), so the pair is still a
valid past step. -/
theorem C7_tool_dispatcher (tools : ToolFns) (input step : String)
    (rest : List String) :
    (∃ r, ExecutorAgent.execute_step tools (step :: rest) input = [(step, r)])
    ∧ (∀ e, pyStartsWith step "SCADA:" = true → tools.query_scada input = .error e →
        ExecutorAgent.execute_step tools (step :: rest) input =
          [(step, "SCADA error: " ++ e)])
    ∧ (∀ e, pyStartsWith step "SCADA:" = false → pyStartsWith step "MANUAL:" = true →
        tools.manual_search input = .error e →
        ExecutorAgent.execute_step tools (step :: rest) input =
          [(step, "Manual search error: " ++ e)]) := by
  refine ⟨⟨_, rfl⟩, ?_, ?_⟩
  · intro e h1 h2
    simp [ExecutorAgent.execute_step, h1, ScadaAgent.query, h2]
  · intro e h1 h2 h3
    simp [ExecutorAgent.execute_step, h1, h2, ManualAgent.search, h3]

/-- Tool adapters that always raise, for the C7 witness. -/
def failTools : ToolFns :=
  { query_scada := fun _ => .error "connection refused",
    manual_search := fun _ => .error "index missing" }

/-- Witness for C7 at a concrete input: a raising SCADA adapter yields the
prefixed error string as the step result. -/
theorem C7_tool_dispatcher_witness :
    ExecutorAgent.execute_step failTools ["SCADA: Get current readings"] "q" =
      [("SCADA: Get current readings", "SCADA error: " ++ "connection refused")] :=
  (C7_tool_dispatcher failTools "q" "SCADA: Get current readings" []).2.1
    "connection refused" (by decide) rfl

/-! ## Claim C10 — executor passes only the original input to the tools -/

/-- Claim C10: a plan-head step tagged `SCADA:` (checked first, as in the
source `elif` chain) makes the executor call the SCADA agent with the
state's original input only, and a step tagged `MANUAL:` (and not `SCADA:`)
the manual agent with the original input only; hence two same-tagged steps
executed with the same input against the same tool behaviors produce equal
result strings — the step text after the tag never influences the result. -/
theorem C10_executor_input_only (tools : ToolFns) (input s1 s2 : String)
    (t1 t2 : List String) :
    (pyStartsWith s1 "SCADA:" = true →
      ExecutorAgent.execute_step tools (s1 :: t1) input =
        [(s1, ScadaAgent.query tools input)])
    ∧ (pyStartsWith s1 "SCADA:" = false → pyStartsWith s1 "MANUAL:" = true →
      ExecutorAgent.execute_step tools (s1 :: t1) input =
        [(s1, ManualAgent.search tools input)])
    ∧ (pyStartsWith s1 "SCADA:" = true → pyStartsWith s2 "SCADA:" = true →
      (ExecutorAgent.execute_step tools (s1 :: t1) input).map Prod.snd =
        (ExecutorAgent.execute_step tools (s2 :: t2) input).map Prod.snd)
    ∧ (pyStartsWith s1 "SCADA:" = false → pyStartsWith s1 "MANUAL:" = true →
       pyStartsWith s2 "SCADA:" = false → pyStartsWith s2 "MANUAL:" = true →
      (ExecutorAgent.execute_step tools (s1 :: t1) input).map Prod.snd =
        (ExecutorAgent.execute_step tools (s2 :: t2) input).map Prod.snd) := by
  refine ⟨?_, ?_, ?_, ?_⟩
  · intro h1
    simp [ExecutorAgent.execute_step, h1]
  · intro h1 h2
    simp [ExecutorAgent.execute_step, h1, h2]
  · intro h1 h2
    simp [ExecutorAgent.execute_step, h1, h2]
  · intro h1 h2 h3 h4
    simp [ExecutorAgent.execute_step, h1, h2, h3, h4]

/-- Witness for C10 at concrete inputs: two different SCADA-tagged step
texts produce the same result string from the same state input. -/
theorem C10_executor_input_only_witness :
    (ExecutorAgent.execute_step failTools ["SCADA: Get pressure history"] "q").map Prod.snd =
      (ExecutorAgent.execute_step failTools ["SCADA: Check error codes"] "q").map Prod.snd :=
  (C10_executor_input_only failTools "q" "SCADA: Get pressure history"
    "SCADA: Check error codes" [] []).2.2.1 (by decide) (by decide)

/-! ## Claim C6 — Human Review Gate consume/timeout behavior -/

/-- The poll loop returns the decoded first available decision and clears
the channel. -/
theorem reviewGatePoll_consume (env : Nat → Option Decision) :
    ∀ fuel start i d, start ≤ i → i < start + fuel → env i = some d →
      (∀ j, start ≤ j → j < i → env j = none) →
      reviewGatePoll env fuel start = (decodeDecision d, none) := by
  intro fuel
  induction fuel with
  | zero =>
    intro start i d hsi hlt
    omega
  | succ fuel ih =>
    intro start i d hsi hlt hd hnone
    unfold reviewGatePoll
    cases hstart : env start with
    | some d0 =>
      have : start = i := by
        by_contra hne
        have : env start = none := hnone start le_rfl (by omega)
        rw [hstart] at this
        exact Option.noConfusion this
      subst this
      rw [hstart] at hd
      injection hd with hd
      rw [hd]
    | none =>
      have hne : start ≠ i := by
        intro hEq
        rw [hEq, hd] at hstart
        exact Option.noConfusion hstart
      exact ih (start + 1) i d (by omega) (by omega) hd
        (fun j hj1 hj2 => hnone j (by omega) hj2)

/-- The poll loop times out to the default continue action when the channel
stays empty for all polls of the window. -/
theorem reviewGatePoll_timeout (env : Nat → Option Decision) :
    ∀ fuel start, (∀ i, start ≤ i → i < start + fuel → env i = none) →
      (reviewGatePoll env fuel start).1 = { action := "continue", feedback := none } := by
  intro fuel
  induction fuel with
  | zero =>
    intro start hnone
    rfl
  | succ fuel ih =>
    intro start hnone
    unfold reviewGatePoll
    rw [hnone start le_rfl (by omega)]
    exact ih (start + 1) (fun i h1 h2 => hnone i (by omega) (by omega))

/-- Claim C6: in one review cycle, if a decision is present in the channel
at some poll of the 600-poll (300 s / 0.5 s) window, the gate consumes the
first such decision exactly once — it returns the decoded action and the
channel is cleared (`none`) at return; if the channel stays empty for the
whole window, the gate resolves to the `continue` action with no
feedback. -/
theorem C6_review_gate (env : Nat → Option Decision) :
    (∀ i d, i < gatePollCount → env i = some d → (∀ j, j < i → env j = none) →
      reviewGate env = (decodeDecision d, none))
    ∧ ((∀ i, i < gatePollCount → env i = none) →
      (reviewGate env).1 = { action := "continue", feedback := none }) := by
  constructor
  · intro i d hi hd hnone
    exact reviewGatePoll_consume env gatePollCount 0 i d (Nat.zero_le i)
      (by simpa using hi) hd (fun j _ hj => hnone j hj)
  · intro hnone
    exact reviewGatePoll_timeout env gatePollCount 0
      (fun i _ hi => hnone i (by simpa using hi))

/-- A channel trace for the C6 witness: a quit decision arrives at poll 3. -/
def c6_env : Nat → Option Decision :=
  fun i => if i = 3 then some { choice := "q", feedback := none } else none

/-- Witness for C6 at a concrete channel trace: the quit decision written at
poll 3 is consumed, decoded to the quit action, and the channel is empty at
return. -/
theorem C6_review_gate_witness :
    reviewGate c6_env = ({ action := "quit", feedback := none }, none) := by
  have h := (C6_review_gate c6_env).1 3 { choice := "q", feedback := none }
    (by decide) (by simp [c6_env])
    (by
      intro j hj
      simp only [c6_env, if_neg (by omega : j ≠ 3)])
  rw [h]
  decide

/-! ## Claim C1 — Conversation Memory growth -/

/-- Tool adapters that always succeed, for concrete workflow runs. -/
def okTools : ToolFns :=
  { query_scada := fun _ => .ok "42 psi", manual_search := fun _ => .ok (.oldFmt []) }

/-- A per-iteration environment whose replanner immediately signals that no
further steps are needed. -/
def iterNoMoreSteps : IterEnv :=
  { tools := okTools, replan := .ok (.plan []), gate := fun _ => none,
    editOracle := .error (), modifyOracle := .error (), modifyCpff := .error () }

/-- A turn environment whose planner oracle raises. -/
def envPlannerFail : TurnEnv :=
  { planner := .error (), iters := fun _ => iterNoMoreSteps,
    postGate := fun _ => none, postEdit := .error (),
    postModifyOracle := .error (), postModifyCpff := .error (),
    synth := .ok "done", summary := .fallback, timestamp := "t" }

/-- A turn environment with a succeeding planner and a synthesizer that
returns the non-empty text "done". -/
def envPlannerOk : TurnEnv :=
  { planner := .ok ["SCADA: Get pressure readings"], iters := fun _ => iterNoMoreSteps,
    postGate := fun _ => none, postEdit := .error (),
    postModifyOracle := .error (), postModifyCpff := .error (),
    synth := .ok "done", summary := .fallback, timestamp := "t" }

/-- Counterexample to C1: when the planner oracle fails, the call returns
the planner-failure apology but the conversation history is unchanged — it
does not grow by 1 in that termination mode, because the early return skips
the turn-recording step. -/
theorem C1_counterexample :
    (run_diagnostic_workflow envPlannerFail [] "q").1 =
      "The planner could not create a valid plan. Please try a different query."
    ∧ (run_diagnostic_workflow envPlannerFail [] "q").2.length = 0 :=
  ⟨by decide, by decide⟩

/-- Amended C1: the conversation history grows by exactly 1 per
`run_diagnostic_workflow` call whenever the planner oracle succeeds (which
covers the synthesized, human-abort and defaulted termination modes,
because validation makes a successful plan non-empty), and is unchanged on
the planner-failure apology early return. -/
theorem C1_conversation_memory (env : TurnEnv) (history : List ConvTurn) (q : String) :
    (∀ steps, env.planner = .ok steps →
      (run_diagnostic_workflow env history q).2.length = history.length + 1)
    ∧ (∀ e, env.planner = .error e →
      (run_diagnostic_workflow env history q).2 = history) := by
  constructor
  · intro steps hp
    have hne : (create_plan env.planner).isEmpty = false := by
      rw [hp]
      simpa [create_plan] using validate_steps_ne_nil steps
    simp [run_diagnostic_workflow, hne]
  · intro e hp
    have he : (create_plan env.planner).isEmpty = true := by
      rw [hp]
      rfl
    simp [run_diagnostic_workflow, he]

/-- Witness for the amended C1: a successful turn appends exactly one
conversation turn to an empty history. -/
theorem C1_conversation_memory_witness :
    (run_diagnostic_workflow envPlannerOk [] "q").2.length =
      ([] : List ConvTurn).length + 1 :=
  (C1_conversation_memory envPlannerOk [] "q").1 ["SCADA: Get pressure readings"] rfl

/-! ## Claim C4 — loop bound and non-empty response -/

/-- The main loop's final `current_iteration` never exceeds 5. -/
theorem loopGo_iter_le (env : TurnEnv) (input : String) :
    ∀ fuel iter st, iter + fuel ≤ 5 → (loopGo env input fuel iter st).2 ≤ 5 := by
  intro fuel
  induction fuel with
  | zero =>
    intro iter st h
    unfold loopGo
    split
    · exact (show iter ≤ 5 by omega)
    · exact (show iter ≤ 5 by omega)
  | succ fuel ih =>
    intro iter st h
    unfold loopGo
    split
    · exact ih (iter + 1) (runIter (env.iters (iter + 1)) input st) (by omega)
    · exact (show iter ≤ 5 by omega)

/-- The synthesizer output is non-empty whenever a successful oracle content
is non-empty; the two fallback texts are always non-empty. -/
theorem synthesize_response_ne_empty (input : String) (n : Nat) (o : SynthOutcome)
    (h : ∀ c, o = SynthOutcome.ok c → c ≠ "") :
    synthesize_response input n o ≠ "" := by
  cases o with
  | ok c => exact h c rfl
  | httpErr =>
    apply append_ne_empty_left
    apply append_ne_empty_left
    apply append_ne_empty_left
    apply append_ne_empty_left
    decide
  | exc =>
    apply append_ne_empty_left
    apply append_ne_empty_left
    apply append_ne_empty_left
    apply append_ne_empty_left
    decide

/-- After the synthesizer step or the default, the response is non-empty
(given non-empty successful synthesizer content). -/
theorem finalizeResponse_ne_empty (env : TurnEnv) (input : String) (st : LoopState)
    (h : ∀ c, env.synth = SynthOutcome.ok c → c ≠ "") :
    (finalizeResponse env input st).response ≠ "" := by
  unfold finalizeResponse
  split
  · exact synthesize_response_ne_empty input st.past_steps.length env.synth h
  · split
    · intro hx
      simp at hx
    · next h1 h2 => exact h2

/-- Counterexample environment for C4: the planner returns one SCADA step,
the replanner then signals no-more-steps (forcing synthesis), and the
synthesizer's HTTP call succeeds with empty content. -/
def envSynthEmpty : TurnEnv :=
  { planner := .ok ["SCADA: Get pressure readings"], iters := fun _ => iterNoMoreSteps,
    postGate := fun _ => none, postEdit := .error (),
    postModifyOracle := .error (), postModifyCpff := .error (),
    synth := .ok "", summary := .fallback, timestamp := "t" }

/-- Counterexample to C4's non-empty-response part: when the synthesizer
oracle returns the empty string, the workflow terminates returning the
empty response — the code never checks the synthesized text for
emptiness. -/
theorem C4_counterexample :
    envSynthEmpty.synth = SynthOutcome.ok ""
    ∧ (run_diagnostic_workflow envSynthEmpty [] "q").1 = "" :=
  ⟨rfl, by decide⟩

/-- Amended C4: the main loop runs at most 5 iterations (the final
`current_iteration` is at most 5), and every terminating run returns a
non-empty response provided the synthesizer oracle never returns the empty
string — the abort, default, apology and fallback texts are all non-empty,
so the synthesizer's own output is the only possible source of an empty
response. -/
theorem C4_loop_bound_and_response (env : TurnEnv) (history : List ConvTurn)
    (q : String) (st : LoopState) :
    (loopGo env q 5 0 st).2 ≤ 5
    ∧ ((∀ c, env.synth = SynthOutcome.ok c → c ≠ "") →
      (run_diagnostic_workflow env history q).1 ≠ "") := by
  constructor
  · exact loopGo_iter_le env q 5 0 st (by omega)
  · intro h
    unfold run_diagnostic_workflow
    split
    · intro hx
      simp at hx
    · exact finalizeResponse_ne_empty env q _ h

/-- Witness for the amended C4 at a concrete environment: the loop counter
stays at most 5 and the returned response is non-empty. -/
theorem C4_loop_bound_and_response_witness :
    (loopGo envPlannerOk "q" 5 0
      { plan := ["SCADA: Get pressure readings"], past_steps := [], response := "",
        ready_for_synthesis := false }).2 ≤ 5
    ∧ (run_diagnostic_workflow envPlannerOk [] "q").1 ≠ "" :=
  ⟨(C4_loop_bound_and_response envPlannerOk [] "q"
      { plan := ["SCADA: Get pressure readings"], past_steps := [], response := "",
        ready_for_synthesis := false }).1,
   (C4_loop_bound_and_response envPlannerOk [] "q"
      { plan := ["SCADA: Get pressure readings"], past_steps := [], response := "",
        ready_for_synthesis := false }).2
     (by
       intro c hc
       have : SynthOutcome.ok "done" = SynthOutcome.ok c := hc
       cases this
       decide)⟩
